import Mathlib

/-!
# Verification of the BCM_TAM2SAM ingestion/normalization pipeline

Shallow embedding of `backend/server.py`: the sanitizer and structural
parser used by `MarketIntelligenceAgent.analyze_market_landscape`, the
curated lookup `get_curated_market_data`, the fallback payload builder
`_get_fallback_analysis`, the field normalizer
`ComprehensiveAnalysisEngine.generate_market_map`, and the
backward-compatibility defaulting step of the `get_analysis` route.

Modelling conventions:
* Python `float` is modelled by `ℚ`.  All numeric literals of the source
  are decimal and are carried exactly; binary floating-point rounding
  (e.g. in `int(tam * 0.3)`) is abstracted away — no verified claim
  depends on a value where that rounding could differ.  Python's
  `float('inf')`/`float('nan')` inputs are outside the model.
* Python dicts are association lists with unique keys; insertion order is
  preserved, matching CPython semantics relied upon by the source.
* `uuid.uuid4()` and `datetime.utcnow()` are nondeterministic and are
  modelled by fixed placeholder values; no claim mentions them.
* Exceptions are modelled by `Except PyErr`; a `try/except` block is a
  `match` on that result.
-/

set_option maxRecDepth 10000

/-- Python exception kinds that the modelled code can raise internally.
All of them are caught by the surrounding `try/except` blocks. -/
inductive PyErr where
  | typeError
  | valueError
  | validationError
  deriving DecidableEq

/-- Characters treated as whitespace by Python's `str.strip()` (ASCII part). -/
def pyWs (c : Char) : Bool :=
  c = ' ' || c = '\t' || c = '\n' || c = '\r' || c = '\x0b' || c = '\x0c'

/-- Python `str.strip()` on a character list. -/
def pyStrip (l : List Char) : List Char :=
  ((l.dropWhile pyWs).reverse.dropWhile pyWs).reverse

/-- `n` is a contiguous substring of `h` (Python `n in h` on strings). -/
def containsSub (n : List Char) : List Char → Bool
  | [] => n.isEmpty
  | c :: rest => n.isPrefixOf (c :: rest) || containsSub n rest

/-- Python `str.split()` with no argument: split on whitespace runs,
dropping empty pieces.  `acc` is the word currently being read, in reverse. -/
def splitWsAux (acc : List Char) : List Char → List (List Char)
  | [] => if acc.isEmpty then [] else [acc.reverse]
  | c :: rest =>
    if pyWs c then
      if acc.isEmpty then splitWsAux [] rest
      else acc.reverse :: splitWsAux [] rest
    else splitWsAux (c :: acc) rest

/-- Python `str.split()` with no argument. -/
def splitWs (l : List Char) : List (List Char) := splitWsAux [] l

/-- ASCII lower-casing of a string (Python `str.lower()` on ASCII input). -/
def strLower (s : String) : String := String.mk (s.data.map Char.toLower)

/-- Python `needle in hay` for `String`s. -/
def strContains (hay needle : String) : Bool := containsSub needle.data hay.data

/-- Python `str.strip()` for `String`s. -/
def strStrip (s : String) : String := String.mk (pyStrip s.data)

/-- The untyped JSON-like trees that `json.loads` produces and that the
field normalizer consumes. -/
inductive JValue where
  | null
  | bool (b : Bool)
  | num (q : ℚ)
  | str (s : String)
  | arr (items : List JValue)
  | obj (fields : List (String × JValue))

/-- First value stored under key `k` (Python `d[k]` / `k in d` on dicts). -/
def jfind (fields : List (String × JValue)) (k : String) : Option JValue :=
  match fields with
  | [] => none
  | (k', v) :: rest => if k' = k then some v else jfind rest k

/-- Python `d.get(k, dflt)` on an already-obtained key/value list. -/
def pyGet (fields : List (String × JValue)) (k : String) (dflt : JValue) : JValue :=
  (jfind fields k).getD dflt

/-- Python `d.get(...)` raises `AttributeError`/`TypeError` when the receiver
is not a dict; extracting the field list models that. -/
def asObj : JValue → Except PyErr (List (String × JValue))
  | .obj fields => .ok fields
  | _ => .error .typeError

/-- Python truthiness (`if not x`). -/
def truthy : JValue → Bool
  | .null => false
  | .bool b => b
  | .num q => decide (q ≠ 0)
  | .str s => !s.data.isEmpty
  | .arr l => !l.isEmpty
  | .obj l => !l.isEmpty

/-- Python `for x in v`: lists iterate elements, strings iterate one-character
strings, dicts iterate their keys, everything else raises `TypeError`. -/
def iterPy : JValue → Except PyErr (List JValue)
  | .arr l => .ok l
  | .str s => .ok (s.data.map (fun c => .str (String.mk [c])))
  | .obj kvs => .ok (kvs.map (fun kv => .str kv.1))
  | _ => .error .typeError

/-- Numeric value of a digit string (most significant first). -/
def digitsVal (l : List Char) : ℕ :=
  l.foldl (fun acc c => 10 * acc + (c.toNat - 48)) 0

/-- Grammar of Python `float(str)` (sign, digits, optional fraction and
exponent; `inf`, `nan` and underscore separators are outside the model). -/
def parseFloatChars (l0 : List Char) : Option ℚ :=
  let l := pyStrip l0
  let sgn : ℚ := match l with | '-' :: _ => -1 | _ => 1
  let l := match l with | '-' :: t => t | '+' :: t => t | _ => l
  let intDigits := l.takeWhile Char.isDigit
  let rest := l.dropWhile Char.isDigit
  let fracDigits := match rest with
    | '.' :: t => t.takeWhile Char.isDigit
    | _ => []
  let rest2 := match rest with
    | '.' :: t => t.dropWhile Char.isDigit
    | _ => rest
  if intDigits.isEmpty && fracDigits.isEmpty then none
  else
    let mant : ℚ :=
      sgn * ((digitsVal intDigits : ℚ) +
        (digitsVal fracDigits : ℚ) / ((10 : ℚ) ^ fracDigits.length))
    match rest2 with
    | [] => some mant
    | e :: t =>
      if e = 'e' || e = 'E' then
        let esgn : ℤ := match t with | '-' :: _ => -1 | _ => 1
        let t := match t with | '-' :: u => u | '+' :: u => u | _ => t
        let eds := t.takeWhile Char.isDigit
        let rem := t.dropWhile Char.isDigit
        if eds.isEmpty || !rem.isEmpty then none
        else some (mant * (10 : ℚ) ^ (esgn * (digitsVal eds : ℤ)))
      else none

/-- Python `float(x)`: numbers and booleans convert, numeric strings parse,
everything else raises. -/
def pyFloat : JValue → Except PyErr ℚ
  | .num q => .ok q
  | .bool b => .ok (if b then 1 else 0)
  | .str s =>
    match parseFloatChars s.data with
    | some q => .ok q
    | none => .error .valueError
  | _ => .error .typeError

/-- Python `int(x)` on a float: truncation toward zero. -/
def pyInt (q : ℚ) : ℚ := ((if 0 ≤ q then ⌊q⌋ else ⌈q⌉ : ℤ) : ℚ)

/-- Decimal rendering of a natural number. -/
def natDecimal (n : ℕ) : List Char :=
  (Nat.toDigits 10 n)

/-- Thousands-separated rendering of an integer, as Python format `{x:,}`. -/
def commaGroupAux : List Char → List Char
  | a :: b :: c :: d :: rest => a :: b :: c :: ',' :: commaGroupAux (d :: rest)
  | l => l

/-- Python `f"{n:,}"` for an integer value. -/
def fmtComma (q : ℚ) : String :=
  let n := q.num
  let ds := natDecimal n.natAbs
  let grouped := (commaGroupAux ds.reverse).reverse
  String.mk ((if n < 0 then ['-'] else []) ++ grouped)

/-- Rendering of a number for Python `str(x)`.  The int/float distinction
and float repr details are abstracted; no claim depends on them. -/
def ratStr (q : ℚ) : String :=
  (if q.num < 0 then "-" else "") ++ String.mk (natDecimal q.num.natAbs)
    ++ (if q.den = 1 then "" else "/" ++ String.mk (natDecimal q.den))

/-- Python `str(x)` on a JSON tree, depth-bounded (approximate rendering of
containers; the source only ever applies it to scalars in modelled paths). -/
def pyStrDepth : ℕ → JValue → String
  | _, .null => "None"
  | _, .bool true => "True"
  | _, .bool false => "False"
  | _, .num q => ratStr q
  | _, .str s => s
  | 0, .arr _ => "[...]"
  | 0, .obj _ => "..."
  | n + 1, .arr l =>
    "[" ++ String.intercalate ", " (l.map (pyStrDepth n)) ++ "]"
  | n + 1, .obj kvs =>
    String.intercalate ", " (kvs.map (fun kv => kv.1 ++ ": " ++ pyStrDepth n kv.2))

/-- Python `str(x)` on a JSON tree. -/
def pyStr (v : JValue) : String := pyStrDepth 32 v

/-! ## Sanitizer (`sanitize_json_content`) and emergency repair -/

/-- Characters removed by the sanitizer's first step, the regex class
of `\x00`-`\x08`, `\x0B`, `\x0C`, `\x0E`-`\x1F`, `\x7F`. -/
def sanitizeRemovedCtl (c : Char) : Bool :=
  c.toNat ≤ 8 || c.toNat = 11 || c.toNat = 12 ||
    (14 ≤ c.toNat && c.toNat ≤ 31) || c.toNat = 127

/-- The sanitizer's second step: `.replace('\n','\\n').replace('\r','\\r')
.replace('\t','\\t')` (the three replacements commute because no
replacement output contains a later target). -/
def escapeCtl : List Char → List Char
  | [] => []
  | c :: r =>
    (if c = '\n' then ['\\', 'n']
     else if c = '\r' then ['\\', 'r']
     else if c = '\t' then ['\\', 't'] else [c]) ++ escapeCtl r

/-- Whether a `:` occurs before the next newline (regex fragment `.*:`). -/
def hasColonAfter : List Char → Bool
  | [] => false
  | c :: r => if c = '\n' then false else if c = ':' then true else hasColonAfter r

/-- Whether the lookahead `(?=.*".*:)` matches: a `"` occurs, with a `:`
after it, all before the next newline. -/
def hasQuoteColon : List Char → Bool
  | [] => false
  | c :: r =>
    if c = '\n' then false
    else if c = '"' && hasColonAfter r then true
    else hasQuoteColon r

/-- The sanitizer's third step, `re.sub(r'(?<!\\)"(?=.*".*:)', '\\"', s)`:
each `"` not preceded by `\` whose lookahead matches is replaced by `\"`.
`prev` is the character preceding the current position in the original
string (regex lookbehind inspects the input, not the output). -/
def escQuotes (prev : Option Char) : List Char → List Char
  | [] => []
  | c :: r =>
    if c = '"' && prev ≠ some '\\' && hasQuoteColon r then
      '\\' :: '"' :: escQuotes (some c) r
    else c :: escQuotes (some c) r

/-- `sanitize_json_content` from `server.py`: remove illegal control
characters, escape literal newlines/CRs/tabs, then escape the quotes the
lookahead heuristic selects. -/
def sanitize_json_content (l : List Char) : List Char :=
  escQuotes none (escapeCtl (l.filter (fun c => !sanitizeRemovedCtl c)))

/-- Characters blanked by the emergency repair (`[\x00-\x1F\x7F-\x9F]`). -/
def emergencyCtl (c : Char) : Bool :=
  c.toNat ≤ 31 || (127 ≤ c.toNat && c.toNat ≤ 159)

/-- Characters of the regex class `\s` (ASCII part). -/
def reWs (c : Char) : Bool :=
  c = ' ' || c = '\t' || c = '\n' || c = '\r' || c = '\x0b' || c = '\x0c'

/-- `re.sub(r'\s+', ' ', s)`: collapse whitespace runs to single spaces.
`prevWs` records whether the previous character belonged to a run. -/
def collapseWsAux (prevWs : Bool) : List Char → List Char
  | [] => []
  | c :: r =>
    if reWs c then
      if prevWs then collapseWsAux true r else ' ' :: collapseWsAux true r
    else c :: collapseWsAux false r

/-- The "emergency" last-resort repair applied when the sanitized text
still fails to parse: blank all control characters, then collapse
whitespace runs. -/
def emergencyClean (l : List Char) : List Char :=
  collapseWsAux false (l.map (fun c => if emergencyCtl c then ' ' else c))

/-! ## Strict JSON parser (`json.loads`)

Recursive-descent parser for the strict JSON grammar that `json.loads`
accepts.  Omitted corners, none of which any claim exercises: the
`NaN`/`Infinity` constants, and surrogate-pair combination in `\u`
escapes.  Numbers are parsed exactly into `ℚ`. -/

/-- JSON inter-token whitespace (`json.decoder` skips only these four). -/
def jsonWs (c : Char) : Bool :=
  c = ' ' || c = '\t' || c = '\n' || c = '\r'

/-- Skip inter-token whitespace. -/
def skipWs (l : List Char) : List Char := l.dropWhile jsonWs

/-- Value of a hex digit, if any. -/
def hexVal (c : Char) : Option ℕ :=
  if '0' ≤ c ∧ c ≤ '9' then some (c.toNat - 48)
  else if 'a' ≤ c ∧ c ≤ 'f' then some (c.toNat - 87)
  else if 'A' ≤ c ∧ c ≤ 'F' then some (c.toNat - 55)
  else none

/-- Body of a JSON string literal after the opening quote: returns the
decoded characters and the remainder after the closing quote.  Strict
mode: unescaped control characters are rejected. -/
def parseStringBody : List Char → Option (List Char × List Char)
  | [] => none
  | '"' :: rest => some ([], rest)
  | '\\' :: e :: rest =>
    match e with
    | '"' => (parseStringBody rest).map (fun p => ('"' :: p.1, p.2))
    | '\\' => (parseStringBody rest).map (fun p => ('\\' :: p.1, p.2))
    | '/' => (parseStringBody rest).map (fun p => ('/' :: p.1, p.2))
    | 'b' => (parseStringBody rest).map (fun p => ('\x08' :: p.1, p.2))
    | 'f' => (parseStringBody rest).map (fun p => ('\x0c' :: p.1, p.2))
    | 'n' => (parseStringBody rest).map (fun p => ('\n' :: p.1, p.2))
    | 'r' => (parseStringBody rest).map (fun p => ('\r' :: p.1, p.2))
    | 't' => (parseStringBody rest).map (fun p => ('\t' :: p.1, p.2))
    | 'u' =>
      match rest with
      | a :: b :: c :: d :: rest' =>
        match hexVal a, hexVal b, hexVal c, hexVal d with
        | some ha, some hb, some hc, some hd =>
          let n := ((ha * 16 + hb) * 16 + hc) * 16 + hd
          (parseStringBody rest').map (fun p =>
            (Char.ofNat n :: p.1, p.2))
        | _, _, _, _ => none
      | _ => none
    | _ => none
  | c :: rest =>
    if c.toNat < 32 then none
    else (parseStringBody rest).map (fun p => (c :: p.1, p.2))

/-- JSON number grammar `-?(0|[1-9]\d*)(\.\d+)?([eE][-+]?\d+)?`; returns
the value and the remainder, consuming only what the regex matches. -/
def parseNumber (l : List Char) : Option (ℚ × List Char) :=
  let (neg, l1) := match l with
    | '-' :: t => (true, t)
    | _ => (false, l)
  let intPart : Option (List Char × List Char) := match l1 with
    | '0' :: t => some (['0'], t)
    | c :: t => if c.isDigit then some (c :: t.takeWhile Char.isDigit, t.dropWhile Char.isDigit) else none
    | [] => none
  match intPart with
  | none => none
  | some (ids, r1) =>
    let (fds, r2) : List Char × List Char := match r1 with
      | '.' :: t =>
        let ds := t.takeWhile Char.isDigit
        if ds.isEmpty then ([], r1) else (ds, t.dropWhile Char.isDigit)
      | _ => ([], r1)
    let (eds, esgn, r3) : List Char × ℤ × List Char := match r2 with
      | e :: t =>
        if e = 'e' || e = 'E' then
          let (sg, t') : ℤ × List Char := match t with
            | '-' :: u => (-1, u)
            | '+' :: u => (1, u)
            | _ => (1, t)
          let ds := t'.takeWhile Char.isDigit
          if ds.isEmpty then ([], 1, r2) else (ds, sg, t'.dropWhile Char.isDigit)
        else ([], 1, r2)
      | [] => ([], 1, r2)
    let mant : ℚ := (digitsVal ids : ℚ) +
      (digitsVal fds : ℚ) / ((10 : ℚ) ^ fds.length)
    let mant := if neg then -mant else mant
    let q := if eds.isEmpty then mant
      else mant * (10 : ℚ) ^ (esgn * (digitsVal eds : ℤ))
    some (q, r3)

mutual

/-- Parse one JSON value; `fuel` bounds the recursion depth (callers pass
more fuel than any input of the given length can consume). -/
def parseVal : ℕ → List Char → Option (JValue × List Char)
  | 0, _ => none
  | fuel + 1, l =>
    match skipWs l with
    | 'n' :: 'u' :: 'l' :: 'l' :: rest => some (.null, rest)
    | 't' :: 'r' :: 'u' :: 'e' :: rest => some (.bool true, rest)
    | 'f' :: 'a' :: 'l' :: 's' :: 'e' :: rest => some (.bool false, rest)
    | '"' :: rest =>
      (parseStringBody rest).map (fun p => (.str (String.mk p.1), p.2))
    | '[' :: rest =>
      (match skipWs rest with
       | ']' :: rest' => some (.arr [], rest')
       | _ => (parseItems fuel rest).map (fun p => (.arr p.1, p.2)))
    | '{' :: rest =>
      (match skipWs rest with
       | '}' :: rest' => some (.obj [], rest')
       | _ => (parseFields fuel rest).map (fun p => (.obj p.1, p.2)))
    | rest => (parseNumber rest).map (fun p => (.num p.1, p.2))

/-- Parse the comma-separated items of a non-empty array, and the `]`. -/
def parseItems : ℕ → List Char → Option (List JValue × List Char)
  | 0, _ => none
  | fuel + 1, l =>
    match parseVal fuel l with
    | none => none
    | some (v, rest) =>
      match skipWs rest with
      | ',' :: rest' =>
        (parseItems fuel rest').map (fun p => (v :: p.1, p.2))
      | ']' :: rest' => some ([v], rest')
      | _ => none

/-- Parse the comma-separated pairs of a non-empty object, and the `}`. -/
def parseFields : ℕ → List Char → Option (List (String × JValue) × List Char)
  | 0, _ => none
  | fuel + 1, l =>
    match skipWs l with
    | '"' :: rest =>
      match parseStringBody rest with
      | none => none
      | some (k, rest1) =>
        match skipWs rest1 with
        | ':' :: rest2 =>
          match parseVal fuel rest2 with
          | none => none
          | some (v, rest3) =>
            match skipWs rest3 with
            | ',' :: rest4 =>
              (parseFields fuel rest4).map (fun p =>
                ((String.mk k, v) :: p.1, p.2))
            | '}' :: rest4 => some ([(String.mk k, v)], rest4)
            | _ => none
        | _ => none
    | _ => none

end

/-- `json.loads`: parse a single JSON document, rejecting trailing data. -/
def parseJson (l : List Char) : Option JValue :=
  match parseVal (2 * l.length + 4) l with
  | some (v, rest) => if (skipWs rest).isEmpty then some v else none
  | none => none

/-! ## Domain model (`pydantic` models of `server.py`) -/

/-- `MarketInput`.  `output_format` and `timestamp` carry no pipeline
meaning and are omitted; `benchmarks` defaults to the empty string. -/
structure MarketInput where
  id : String
  product_name : String
  industry : String
  geography : String
  target_user : String
  demand_driver : String
  transaction_type : String
  key_metrics : String
  benchmarks : String := ""
  deriving DecidableEq

/-- `ResonateBaseDemographics`. -/
structure ResonateBaseDemographics where
  age_range : Option String := none
  gender : Option String := none
  household_income : Option String := none
  education : Option String := none
  employment : Option String := none

/-- `ResonateGeographics`. -/
structure ResonateGeographics where
  region : Option String := none
  market_size : Option String := none
  geography_type : Option String := none

/-- `ResonateMediaUsage`. -/
structure ResonateMediaUsage where
  primary_media : List String := []
  digital_engagement : Option String := none
  content_preferences : List String := []

/-- `ResonateSegmentMapping`. -/
structure ResonateSegmentMapping where
  demographics : Option ResonateBaseDemographics := none
  geographics : Option ResonateGeographics := none
  media_usage : Option ResonateMediaUsage := none
  resonate_taxonomy_paths : List String := []
  mapping_confidence : Option String := none

/-- `MarketSegment`. -/
structure MarketSegment where
  name : String
  description : String
  size_estimate : ℚ
  growth_rate : ℚ
  key_players : List String
  resonate_mapping : Option ResonateSegmentMapping := none

/-- `Competitor`. -/
structure Competitor where
  name : String
  strengths : List String
  weaknesses : List String
  market_share : Option ℚ := none
  price_range : Option String := none
  price_tier : Option String := none
  innovation_focus : Option String := none
  user_segment : Option String := none

/-- `MarketMap`.  The generated `id` and the `timestamp` are modelled by
placeholders (see the header). -/
structure MarketMap where
  id : String
  market_input_id : String
  total_market_size : ℚ
  market_growth_rate : ℚ
  key_drivers : List String
  analysis_perspective : String
  brand_position : Option String
  segmentation_by_geographics : List MarketSegment
  segmentation_by_demographics : List MarketSegment
  segmentation_by_psychographics : List MarketSegment
  segmentation_by_behavioral : List MarketSegment
  segmentation_by_firmographics : List MarketSegment
  competitors : List Competitor
  opportunities : List String
  threats : List String
  strategic_recommendations : List String
  marketing_opportunities : Option (List String)
  marketing_threats : Option (List String)
  marketing_recommendations : Option (List String)
  competitive_digital_assessment : Option (List (String × JValue))
  ppc_intelligence : Option (List (String × JValue))
  executive_summary : String
  data_sources : List String
  confidence_level : String
  methodology : String

/-! ## Pydantic field coercions

The source runs on a pydantic whose lax mode accepts `None` for
`Optional` fields, numeric strings for `float` fields, and rejects
non-string values for `str` fields and non-lists for `List` fields;
a rejection raises `ValidationError`, caught by the enclosing `try`. -/

/-- Coercion into a pydantic `str` field. -/
def coerceStr : JValue → Except PyErr String
  | .str s => .ok s
  | _ => .error .validationError

/-- Coercion into a pydantic `Optional[str]` field. -/
def coerceOptStr : JValue → Except PyErr (Option String)
  | .null => .ok none
  | .str s => .ok (some s)
  | _ => .error .validationError

/-- Coercion into a pydantic `List[str]` field. -/
def coerceStrList : JValue → Except PyErr (List String)
  | .arr items => items.mapM coerceStr
  | _ => .error .validationError

/-- Coercion into a pydantic `Optional[List[str]]` field. -/
def coerceOptStrList : JValue → Except PyErr (Option (List String))
  | .null => .ok none
  | .arr items => (items.mapM coerceStr).map some
  | _ => .error .validationError

/-- Coercion into a pydantic `Optional[float]` field. -/
def coerceOptFloat : JValue → Except PyErr (Option ℚ)
  | .null => .ok none
  | .num q => .ok (some q)
  | .bool b => .ok (some (if b then 1 else 0))
  | .str s => (pyFloat (.str s)).map some
  | _ => .error .validationError

/-- Coercion into a pydantic `Optional[Dict[str, Any]]` field. -/
def coerceOptObj : JValue → Except PyErr (Option (List (String × JValue)))
  | .null => .ok none
  | .obj kvs => .ok (some kvs)
  | _ => .error .validationError

/-! ## Perspective and B2B classification (`server.py` 283-290 etc.) -/

/-- The product-name stoplist of the perspective classifier. -/
def brandStoplist : List String :=
  ["new product", "new service", "startup", "new company"]

/-- `has_specific_brand`: non-empty, non-blank product name outside the
stoplist. -/
def hasSpecificBrand (i : MarketInput) : Bool :=
  !i.product_name.data.isEmpty
    && !(pyStrip i.product_name.data).isEmpty
    && !brandStoplist.contains (strLower i.product_name)

/-- `analysis_perspective` string derived from the product name. -/
def analysisPerspective (i : MarketInput) : String :=
  if hasSpecificBrand i then "existing_brand" else "new_entrant"

/-- The industry keyword set of the B2B classifier. -/
def b2bKeywords : List String :=
  ["b2b", "business", "enterprise", "saas", "software",
   "financial services", "consulting", "professional services"]

/-- `is_b2b`: the lowered industry contains one of the keywords. -/
def isB2B (i : MarketInput) : Bool :=
  b2bKeywords.any (fun t => containsSub t.data (strLower i.industry).data)

/-! ## Curated lookup (`get_curated_market_data`) -/

/-- One record of the curated market-data table. -/
structure CuratedData where
  tam : ℚ
  growth_rate : ℚ
  competitors : List String
  sources : List String
  confidence : String

/-- The curated table, in source (insertion) order. -/
def curatedTable : List ((String × String × String) × CuratedData) :=
  [(("craft beer", "food & beverage", "united states"),
    { tam := 27800000000, growth_rate := 84/1000,
      competitors := ["Sierra Nevada", "Stone Brewing", "New Belgium",
        "Dogfish Head", "Bell's Brewery"],
      sources := ["Brewers Association", "IBISWorld"], confidence := "high" }),
   (("payment processing", "financial services", "global"),
    { tam := 125000000000, growth_rate := 87/1000,
      competitors := ["Visa", "Mastercard", "PayPal", "Stripe", "Square"],
      sources := ["McKinsey", "PwC Global Payments Report"], confidence := "high" }),
   (("fitness tracker", "wearable technology", "global"),
    { tam := 42000000000, growth_rate := 92/1000,
      competitors := ["Apple", "Fitbit", "Garmin", "Xiaomi", "Samsung"],
      sources := ["Grand View Research", "Allied Market Research"], confidence := "high" }),
   (("event equipment rental", "event services", "united states"),
    { tam := 18500000000, growth_rate := 58/1000,
      competitors := ["United Rentals", "Home Depot Tool Rental", "Party City",
        "Abbey Party Rents", "Classic Party Rentals", "Tent Rental Plus"],
      sources := ["IBISWorld", "American Rental Association", "Event Rental Systems"],
      confidence := "high" }),
   (("event planning", "event services", "united states"),
    { tam := 5200000000, growth_rate := 87/1000,
      competitors := ["Eventbrite", "Cvent", "Meeting Professionals International",
        "International Live Events Association"],
      sources := ["IBISWorld", "Grand View Research"], confidence := "high" }),
   (("project management software", "software", "global"),
    { tam := 6800000000, growth_rate := 105/1000,
      competitors := ["Microsoft Project", "Asana", "Monday.com", "Jira",
        "ClickUp", "Trello"],
      sources := ["Grand View Research", "MarketsandMarkets"], confidence := "high" })]

/-- Geography synonym folding of the curated lookup. -/
def normalizeGeography (g : String) : String :=
  if ["usa", "us", "america", "united states", "united states of america"].contains g
  then "united states"
  else if ["worldwide", "international", "global"].contains g then "global"
  else g

/-- The fuzzy product condition: containment either way, or a shared token
longer than three characters. -/
def productMatch (pk kp : String) : Bool :=
  containsSub pk.data kp.data || containsSub kp.data pk.data
  || (splitWs pk.data).any (fun w => w.length > 3 && containsSub w kp.data)
  || (splitWs kp.data).any (fun w => w.length > 3 && containsSub w pk.data)

/-- The fuzzy industry condition, including the fixed synonym clauses. -/
def industryMatch (ik ki : String) : Bool :=
  ik = ki || containsSub ik.data ki.data || containsSub ki.data ik.data
  || (ik = "wearable technology" && ki = "technology")
  || (ik = "technology" && containsSub "software".data ki.data)
  || (ik = "fintech" && ki = "financial services")

/-- The fuzzy geography condition. -/
def geographyMatch (gk kg : String) : Bool :=
  gk = kg || (gk = "global" && (kg = "global" || kg = "worldwide"))
  || (gk = "united states" && kg = "united states")

/-- `MarketIntelligenceAgent.get_curated_market_data`: exact triple match
first, then the first fuzzy match in table order. -/
def get_curated_market_data (product_name industry geography : String) :
    Option CuratedData :=
  let pk := strStrip (strLower product_name)
  let ik := strStrip (strLower industry)
  let gk := normalizeGeography (strStrip (strLower geography))
  match curatedTable.find? (fun e => e.1 = (pk, ik, gk)) with
  | some e => some e.2
  | none =>
    (curatedTable.find? (fun e =>
      productMatch pk e.1.1 && industryMatch ik e.1.2.1 && geographyMatch gk e.1.2.2)).map
      (·.2)

/-! ## Fallback analysis (`MarketIntelligenceAgent._get_fallback_analysis`)

Note a source defect carried over faithfully: the generic competitor list
(`server.py:757`) is written at the same indentation as the
`if curated_data:` statement, so it unconditionally overwrites the
`real_competitors` list built from curated data at line 748.  The
`realCompetitors` definition below models the dead assignment. -/

/-- The per-rank market shares of the (dead) curated competitor loop. -/
def curatedShares : List ℚ := [25/100, 20/100, 15/100, 12/100, 10/100]

/-- The `real_competitors` list built from curated data at
`server.py:736-748`.  Dead code in the source: the generic list below
always overwrites it. -/
def realCompetitors (i : MarketInput) (d : CuratedData) : List JValue :=
  ((d.competitors.take 5).enum).map (fun p =>
    .obj [("name", .str p.2),
          ("share", .num (curatedShares.getD p.1 (8/100))),
          ("strengths", .arr [.str "Market presence", .str "Brand recognition"]),
          ("weaknesses", .arr [.str "Competition", .str "Market saturation"]),
          ("price_range", .str "$150-$400"),
          ("price_tier", .str "Mid-Range"),
          ("innovation_focus", .str "Market growth"),
          ("user_segment", .str i.target_user)])

/-- The generic competitor list of `server.py:757-798`, which (owing to
its indentation) is assigned on every path through
`_get_fallback_analysis`. -/
def genericCompetitors (i : MarketInput) : List JValue :=
  [.obj [("name", .str "Market Leader"), ("share", .num (25/100)),
         ("strengths", .arr [.str "Market dominance", .str "Brand recognition"]),
         ("weaknesses", .arr [.str "High pricing", .str "Legacy systems"]),
         ("price_range", .str "$200-$500"), ("price_tier", .str "Premium"),
         ("innovation_focus", .str "Market expansion"),
         ("user_segment", .str i.target_user)],
   .obj [("name", .str "Technology Innovator"), ("share", .num (20/100)),
         ("strengths", .arr [.str "Innovation", .str "Technology leadership"]),
         ("weaknesses", .arr [.str "Limited market reach", .str "Resource constraints"]),
         ("price_range", .str "$150-$400"), ("price_tier", .str "Mid-Range"),
         ("innovation_focus", .str "Technology advancement"),
         ("user_segment", .str i.target_user)],
   .obj [("name", .str "Growth Challenger"), ("share", .num (15/100)),
         ("strengths", .arr [.str "Rapid growth", .str "Customer focus"]),
         ("weaknesses", .arr [.str "Scale limitations", .str "Brand awareness"]),
         ("price_range", .str "$100-$300"), ("price_tier", .str "Mid-Range"),
         ("innovation_focus", .str "Customer experience"),
         ("user_segment", .str i.target_user)],
   .obj [("name", .str "Value Player"), ("share", .num (10/100)),
         ("strengths", .arr [.str "Cost efficiency", .str "Accessibility"]),
         ("weaknesses", .arr [.str "Limited features", .str "Low margins"]),
         ("price_range", .str "$50-$200"), ("price_tier", .str "Budget"),
         ("innovation_focus", .str "Cost optimization"),
         ("user_segment", .str i.target_user)]]

/-- A fallback segment dict with the given fields. -/
def mkSeg (name description : String) (size : ℚ) (growth : ℚ)
    (players : List String) : JValue :=
  .obj [("name", .str name), ("description", .str description),
        ("size", .num size), ("growth", .num growth),
        ("key_players", .arr (players.map .str))]

/-- The fallback `segmentation` dict (`server.py:801-925`), including the
B2B-gated firmographic list. -/
def fallbackSegmentation (sam : ℚ) (b2b : Bool) : List (String × JValue) :=
  [("by_geographics", .arr
     [mkSeg "Major Metro Areas" "Urban markets with high population density"
        (pyInt (sam * (4/10))) (7/100) ["Market Leader", "Technology Innovator"],
      mkSeg "Suburban Markets" "Suburban areas with growing populations"
        (pyInt (sam * (35/100))) (9/100) ["Growth Challenger", "Value Player"],
      mkSeg "Secondary Cities" "Mid-size cities and rural areas"
        (pyInt (sam * (25/100))) (11/100) ["Value Player", "Market Leader"]]),
   ("by_demographics", .arr
     [mkSeg "Young Adults" "Tech-savvy professionals 25-35"
        (pyInt (sam * (4/10))) (10/100) ["Technology Innovator", "Growth Challenger"],
      mkSeg "Middle-aged" "Established professionals 36-50"
        (pyInt (sam * (4/10))) (6/100) ["Market Leader", "Technology Innovator"],
      mkSeg "Seniors" "Mature consumers 51+"
        (pyInt (sam * (2/10))) (8/100) ["Market Leader", "Value Player"]]),
   ("by_psychographics", .arr
     [mkSeg "Innovation Adopters" "Early adopters of new technology"
        (pyInt (sam * (4/10))) (12/100) ["Technology Innovator", "Growth Challenger"],
      mkSeg "Quality Focused" "Premium quality seekers"
        (pyInt (sam * (4/10))) (9/100) ["Market Leader", "Technology Innovator"],
      mkSeg "Budget Conscious" "Value-oriented consumers"
        (pyInt (sam * (2/10))) (5/100) ["Value Player", "Growth Challenger"]]),
   ("by_behavioral", .arr
     [mkSeg "Regular Users" "Daily active users"
        (pyInt (sam * (4/10))) (8/100) ["Market Leader", "Technology Innovator"],
      mkSeg "Occasional Users" "Periodic usage patterns"
        (pyInt (sam * (4/10))) (6/100) ["Growth Challenger", "Value Player"],
      mkSeg "New Users" "First-time market entrants"
        (pyInt (sam * (2/10))) (15/100) ["Growth Challenger", "Technology Innovator"]]),
   ("by_firmographics",
    if b2b then .arr
      [.obj [("name", .str "Enterprise Clients"),
             ("description", .str "Large corporations with 1000+ employees"),
             ("size", .num (pyInt (sam * (4/10)))), ("growth", .num (6/100)),
             ("key_players", .arr [.str "Market Leader", .str "Technology Innovator"]),
             ("firmographic_factors", .arr [.str "Enterprise", .str "1000+ employees",
               .str "Global locations", .str "C-suite", .str "$1B+ revenue"])],
       .obj [("name", .str "Mid-Market Companies"),
             ("description", .str "Growing companies with 100-1000 employees"),
             ("size", .num (pyInt (sam * (35/100)))), ("growth", .num (9/100)),
             ("key_players", .arr [.str "Growth Challenger", .str "Technology Innovator"]),
             ("firmographic_factors", .arr [.str "Mid-market", .str "100-1000 employees",
               .str "Regional presence", .str "Director level", .str "$10M-$1B revenue"])],
       .obj [("name", .str "Small Businesses"),
             ("description", .str "Small businesses with under 100 employees"),
             ("size", .num (pyInt (sam * (25/100)))), ("growth", .num (12/100)),
             ("key_players", .arr [.str "Value Player", .str "Growth Challenger"]),
             ("firmographic_factors", .arr [.str "Small business", .str "Under 100 employees",
               .str "Local presence", .str "Manager level", .str "Under $10M revenue"])]]
    else .arr [])]

/-- The return dict of `_get_fallback_analysis` (`server.py:927-966`), as a
function of the already-made classification decisions and the chosen TAM.
`existingBrand` gates the spliced-in `brand_position` key; `b2b` gates the
firmographic list. -/
def fallbackPayload (i : MarketInput) (existingBrand b2b : Bool) (tam : ℚ) : JValue :=
  let sam := pyInt (tam * (3/10))
  let som := pyInt (sam * (1/10))
  .obj (
    [("market_overview", .obj
       [("total_market_size", .num tam),
        ("growth_rate", .num (8/100)),
        ("key_drivers", .arr [.str i.demand_driver, .str "Technology adoption",
          .str "Market expansion", .str "Consumer demand growth"]),
        ("tam_methodology", .str "Basic market estimation"),
        ("sam_calculation", .str ("30% of TAM: $" ++ fmtComma sam)),
        ("som_estimation", .str ("10% of SAM: $" ++ fmtComma som))]),
     ("analysis_perspective", .str (if existingBrand then "existing_brand" else "new_entrant"))]
    ++ (if existingBrand then
          [("brand_position", .str ("Fallback position analysis for " ++ i.product_name))]
        else [])
    ++ [("segmentation", .obj (fallbackSegmentation (pyInt (tam * (3/10))) b2b)),
        ("competitors", .arr (genericCompetitors i)),
        ("opportunities", .arr
          [.str (i.demand_driver ++ " driving market growth"),
           .str ("Underserved segments in " ++ i.geography),
           .str "Technology integration opportunities",
           .str ("Partnership potential in " ++ i.industry)]),
        ("threats", .arr
          [.str ("Intense competition in " ++ i.industry),
           .str "Market saturation risks",
           .str "Regulatory challenges",
           .str "Economic uncertainty"]),
        ("recommendations", .arr
          [.str ("Focus on " ++ i.target_user ++ " segment differentiation"),
           .str ("Leverage " ++ i.demand_driver ++ " trends for growth"),
           .str ("Build strategic partnerships in " ++ i.industry),
           .str ("Invest in " ++ i.key_metrics ++ " capabilities")]),
        ("data_sources", .arr [.str "Basic market estimation"]),
        ("confidence_level", .str "low"),
        ("methodology", .str "Minimal fallback analysis")])

/-- `MarketIntelligenceAgent._get_fallback_analysis`: classify, consult the
curated table for the TAM, and build the payload.  Because of the
indentation defect described above, only the TAM (and the derived
SAM/SOM-based segment sizes) depends on the curated hit; the competitor
list is always the generic one. -/
def get_fallback_analysis (i : MarketInput) : JValue :=
  fallbackPayload i (hasSpecificBrand i) (isB2B i)
    (match get_curated_market_data (strLower i.product_name) (strLower i.industry)
        (strLower i.geography) with
     | some d => d.tam
     | none => 1000000000)

/-! ## Resonate mapping extraction (inner `try` of the segment loops) -/

/-- Python `k in v` (membership operator) for the shapes the inner try can
meet: dict keys, list elements, substring of a string; other receivers
raise `TypeError`. -/
def pyInOp (k : String) : JValue → Except PyErr Bool
  | .obj kvs => .ok (jfind kvs k).isSome
  | .arr items => .ok (items.any (fun x => match x with | .str s => s = k | _ => false))
  | .str s => .ok (containsSub k.data s.data)
  | _ => .error .typeError

/-- `ResonateBaseDemographics(**d)`. -/
def buildBaseDemographics (kvs : List (String × JValue)) :
    Except PyErr ResonateBaseDemographics := do
  let age_range ← coerceOptStr (pyGet kvs "age_range" .null)
  let gender ← coerceOptStr (pyGet kvs "gender" .null)
  let household_income ← coerceOptStr (pyGet kvs "household_income" .null)
  let education ← coerceOptStr (pyGet kvs "education" .null)
  let employment ← coerceOptStr (pyGet kvs "employment" .null)
  pure { age_range, gender, household_income, education, employment }

/-- `ResonateGeographics(**d)`. -/
def buildGeographics (kvs : List (String × JValue)) :
    Except PyErr ResonateGeographics := do
  let region ← coerceOptStr (pyGet kvs "region" .null)
  let market_size ← coerceOptStr (pyGet kvs "market_size" .null)
  let geography_type ← coerceOptStr (pyGet kvs "geography_type" .null)
  pure { region, market_size, geography_type }

/-- `ResonateMediaUsage(**d)`. -/
def buildMediaUsage (kvs : List (String × JValue)) :
    Except PyErr ResonateMediaUsage := do
  let primary_media ← coerceStrList (pyGet kvs "primary_media" (.arr []))
  let digital_engagement ← coerceOptStr (pyGet kvs "digital_engagement" .null)
  let content_preferences ← coerceStrList (pyGet kvs "content_preferences" (.arr []))
  pure { primary_media, digital_engagement, content_preferences }

/-- Body of the inner `try` that builds a `ResonateSegmentMapping` from
`seg["resonate_mapping"]`. -/
def buildResonate (rmv : JValue) : Except PyErr ResonateSegmentMapping := do
  let hasD ← pyInOp "demographics" rmv
  let demographics ← if hasD then do
      let kvs ← asObj rmv
      let dkvs ← asObj (pyGet kvs "demographics" (.obj []))
      (buildBaseDemographics dkvs).map some
    else pure none
  let hasG ← pyInOp "geographics" rmv
  let geographics ← if hasG then do
      let kvs ← asObj rmv
      let gkvs ← asObj (pyGet kvs "geographics" (.obj []))
      (buildGeographics gkvs).map some
    else pure none
  let hasM ← pyInOp "media_usage" rmv
  let media_usage ← if hasM then do
      let kvs ← asObj rmv
      let mkvs ← asObj (pyGet kvs "media_usage" (.obj []))
      (buildMediaUsage mkvs).map some
    else pure none
  let kvs ← asObj rmv
  let resonate_taxonomy_paths ← coerceStrList (pyGet kvs "resonate_taxonomy_paths" (.arr []))
  let mapping_confidence ← coerceOptStr (pyGet kvs "mapping_confidence" .null)
  pure { demographics, geographics, media_usage, resonate_taxonomy_paths,
         mapping_confidence }

/-- The inner `try/except` around the Resonate mapping: any failure
degrades to `None` and never escapes the segment loop. -/
def tryResonate (segKvs : List (String × JValue)) : Option ResonateSegmentMapping :=
  match jfind segKvs "resonate_mapping" with
  | none => none
  | some rmv =>
    match buildResonate rmv with
    | .ok m => some m
    | .error _ => none

/-! ## Segment and competitor conversion (`generate_market_map` loops) -/

/-- One iteration of a segment loop: read each field with its loop-specific
default, coercing through `float(...)` for the numeric fields.
`withResonate` marks the three loops that attach a Resonate mapping. -/
def convertSeg (dName dDesc : String) (dSize dGrowth : ℚ) (dPlayers : List String)
    (withResonate : Bool) (v : JValue) : Except PyErr MarketSegment := do
  let kvs ← asObj v
  let rm := if withResonate then tryResonate kvs else none
  let name ← coerceStr (pyGet kvs "name" (.str dName))
  let description ← coerceStr (pyGet kvs "description" (.str dDesc))
  let size_estimate ← pyFloat (pyGet kvs "size" (.num dSize))
  let growth_rate ← pyFloat (pyGet kvs "growth" (.num dGrowth))
  let key_players ← coerceStrList (pyGet kvs "key_players" (.arr (dPlayers.map .str)))
  pure { name, description, size_estimate, growth_rate, key_players,
         resonate_mapping := rm }

/-- The `by_geographics` loop body (`server.py:1136-1143`), which is the
segment conversion the normalizer applies to geographic segments. -/
def convertGeoSegment : JValue → Except PyErr MarketSegment :=
  convertSeg "Geographic Segment" "Geographic segment" 1000000000 (5/100)
    ["Company A", "Company B"] false

/-- The competitor loop body (`server.py:1118-1126`): defaults apply only
when a key is absent; `price_tier`, `innovation_focus` and `user_segment`
are never passed to the constructor and stay `None`. -/
def convertCompetitor (v : JValue) : Except PyErr Competitor := do
  let kvs ← asObj v
  let name ← coerceStr (pyGet kvs "name" (.str "Competitor"))
  let strengths ← coerceStrList
    (pyGet kvs "strengths" (.arr [.str "Strength 1", .str "Strength 2"]))
  let weaknesses ← coerceStrList
    (pyGet kvs "weaknesses" (.arr [.str "Weakness 1", .str "Weakness 2"]))
  let market_share ← coerceOptFloat (pyGet kvs "share" (.num (1/10)))
  let price_range ← coerceOptStr (pyGet kvs "price_range" (.str "$100-$250"))
  pure { name, strengths, weaknesses, market_share, price_range,
         price_tier := none, innovation_focus := none, user_segment := none }

/-- One entry of the `data_sources` comprehension: dict entries are reduced
to their `name` (with `str(source)` as the default), everything else is
stringified. -/
def dataSourceName : JValue → Except PyErr String
  | .obj kvs => coerceStr (pyGet kvs "name" (.str (pyStr (.obj kvs))))
  | v => .ok (pyStr v)

/-- The `opportunities`/`marketing_opportunities` reconciliation of
`server.py:1081-1083`. -/
def selectOpportunities (kvs : List (String × JValue)) : JValue :=
  let ops := pyGet kvs "opportunities" (.arr [])
  if truthy ops then ops else pyGet kvs "marketing_opportunities" (.arr [])

/-! ## The field normalizer (`ComprehensiveAnalysisEngine.generate_market_map`) -/

/-- Body of the `try` block of `generate_market_map`, in source order.  The
`by_function`/`by_user`/`by_price` loops build lists the source never uses,
but their conversions can still raise and are therefore kept. -/
def tryGenerateMarketMap (i : MarketInput) (ai : JValue) : Except PyErr MarketMap := do
  let kvs ← asObj ai
  let overviewJ := pyGet kvs "market_overview" (.obj [])
  let segJ := pyGet kvs "segmentation" (.obj [])
  let competitorsJ := pyGet kvs "competitors" (.arr [])
  let opsJ := selectOpportunities kvs
  let threatsJ := pyGet kvs "threats" (.arr [])
  let recsJ := pyGet kvs "recommendations" (.arr [])
  let segKvs ← asObj segJ
  let _functional ← (← iterPy (pyGet segKvs "by_function" (.arr []))).mapM
    (convertSeg "Segment" "Market segment" 1000000000 (5/100) ["Player 1", "Player 2"] false)
  let _user ← (← iterPy (pyGet segKvs "by_user" (.arr []))).mapM
    (convertSeg "User Segment" "User segment" 500000000 (6/100) ["Company A", "Company B"] false)
  let _price ← (← iterPy (pyGet segKvs "by_price" (.arr []))).mapM
    (convertSeg "Price Tier" "Price segment" 800000000 (7/100) ["Brand X", "Brand Y"] false)
  let competitor_objects ← (← iterPy competitorsJ).mapM convertCompetitor
  let geo ← (← iterPy (pyGet segKvs "by_geographics" (.arr []))).mapM convertGeoSegment
  let demo ← (← iterPy (pyGet segKvs "by_demographics" (.arr []))).mapM
    (convertSeg "Demographic Segment" "Demographic segment" 1000000000 (5/100)
      ["Company A", "Company B"] true)
  let psy ← (← iterPy (pyGet segKvs "by_psychographics" (.arr []))).mapM
    (convertSeg "Psychographic Segment" "Psychographic segment" 1000000000 (5/100)
      ["Company A", "Company B"] true)
  let behav ← (← iterPy (pyGet segKvs "by_behavioral" (.arr []))).mapM
    (convertSeg "Behavioral Segment" "Behavioral segment" 1000000000 (5/100)
      ["Company A", "Company B"] true)
  let firmo ← (← iterPy (pyGet segKvs "by_firmographics" (.arr []))).mapM
    (convertSeg "Firmographic Segment" "Firmographic segment" 1000000000 (5/100)
      ["Company A", "Company B"] false)
  let ovKvs ← asObj overviewJ
  let total_market_size ← pyFloat (pyGet ovKvs "total_market_size" (.num 5000000000))
  let market_growth_rate ← pyFloat (pyGet ovKvs "growth_rate" (.num (8/100)))
  let key_drivers ← coerceStrList (pyGet ovKvs "key_drivers"
    (.arr [.str "Digital transformation", .str "Consumer demand"]))
  let analysis_perspective ← coerceStr
    (pyGet kvs "analysis_perspective" (.str (analysisPerspective i)))
  let brand_position ← coerceOptStr (pyGet kvs "brand_position" .null)
  let opportunities ← coerceStrList opsJ
  let threats ← coerceStrList threatsJ
  let strategic_recommendations ← coerceStrList recsJ
  let marketing_opportunities ← coerceOptStrList
    (pyGet kvs "marketing_opportunities" (.arr []))
  let marketing_threats ← coerceOptStrList (pyGet kvs "marketing_threats" (.arr []))
  let marketing_recommendations ← coerceOptStrList
    (pyGet kvs "marketing_recommendations" (.arr []))
  let competitive_digital_assessment ← coerceOptObj
    (pyGet kvs "competitive_digital_assessment" (.obj []))
  let sourceItems ← iterPy (pyGet kvs "data_sources"
    (.arr [.str "Industry reports", .str "Market research", .str "Public data"]))
  let data_sources ← sourceItems.mapM dataSourceName
  let confidence_level ← coerceStr (pyGet kvs "confidence_level" (.str "medium"))
  let methodology ← coerceStr
    (pyGet kvs "methodology" (.str "AI-powered analysis with market research"))
  let executive_summary ← coerceStr
    (pyGet kvs "executive_summary" (.str "Executive summary not available"))
  pure { id := "generated-id", market_input_id := i.id, total_market_size,
         market_growth_rate, key_drivers, analysis_perspective, brand_position,
         segmentation_by_geographics := geo, segmentation_by_demographics := demo,
         segmentation_by_psychographics := psy, segmentation_by_behavioral := behav,
         segmentation_by_firmographics := firmo, competitors := competitor_objects,
         opportunities, threats, strategic_recommendations, marketing_opportunities,
         marketing_threats, marketing_recommendations, competitive_digital_assessment,
         ppc_intelligence := some [], executive_summary, data_sources,
         confidence_level, methodology }

/-- The sixteen-space indentation of the fallback executive summary's
source lines, which `.strip()` does not remove from interior lines. -/
def fbInd : String := "                "

/-- The executive summary of the basic fallback `MarketMap`
(`server.py:1294-1318`), after its trailing `.strip()`. -/
def fallbackExecutiveSummary (i : MarketInput) : String :=
  "**1. MARKETING CHALLENGE**\n"
  ++ fbInd ++ "How can " ++ i.product_name ++ " increase market share by 15-25% through enhanced digital marketing campaigns and targeted advertising strategies within the next 2-3 years?\n\n"
  ++ fbInd ++ "**2. MARKET CONTEXT**  \n"
  ++ fbInd ++ "The " ++ i.industry ++ " marketing landscape is evolving with digital-first customer acquisition driven by " ++ i.demand_driver ++ ". " ++ i.product_name ++ " needs strategic marketing positioning to effectively reach " ++ i.target_user ++ " in an increasingly competitive advertising environment.\n\n"
  ++ fbInd ++ "**3. MARKETING SUCCESS METRICS**\n"
  ++ fbInd ++ "Success will be measured by brand awareness lift, lead generation improvement, customer acquisition cost reduction, campaign ROI optimization, and improved " ++ i.key_metrics ++ " through marketing initiatives.\n\n"
  ++ fbInd ++ "**4. MARKETING SCOPE & FOCUS**\n"
  ++ fbInd ++ "Analysis focuses on " ++ i.geography ++ " digital marketing opportunities with emphasis on paid advertising, content marketing, and social media strategies within the " ++ i.industry ++ " sector.\n\n"
  ++ fbInd ++ "**5. KEY MARKETING STAKEHOLDERS**\n"
  ++ fbInd ++ "Marketing team, brand managers, target customers (" ++ i.target_user ++ "), digital agencies, media partners, and competitive marketing teams.\n\n"
  ++ fbInd ++ "**6. MARKETING INSIGHT SOURCES**\n"
  ++ fbInd ++ "Customer research, competitive advertising intelligence, digital analytics, campaign performance data, and marketing industry benchmarks for strategic campaign development.\n\n"
  ++ fbInd ++ "**MARKET SEGMENTATION INSIGHTS**\n"
  ++ fbInd ++ "Geographic and demographic segmentation reveals distinct opportunities across various market segments, with particular strength in areas experiencing rapid adoption of " ++ i.transaction_type ++ " models.\n\n"
  ++ fbInd ++ "**STRATEGIC RECOMMENDATIONS**\n"
  ++ fbInd ++ "Key priorities include focused market entry in high-growth segments, strategic partnerships with established players, and investment in capabilities that leverage " ++ i.demand_driver ++ " trends to capture market share."

/-- The `MarketMap` returned by the `except` branch of
`generate_market_map` (`server.py:1272-1323`): the entire record is
replaced by fixed placeholders when any conversion inside the `try`
raises. -/
def basicFallbackMarketMap (i : MarketInput) : MarketMap :=
  { id := "generated-id", market_input_id := i.id,
    total_market_size := 5000000000, market_growth_rate := 8/100,
    key_drivers := ["Market growth", "Technology adoption"],
    analysis_perspective := analysisPerspective i,
    brand_position := if hasSpecificBrand i then
        some ("Fallback position analysis for " ++ i.product_name)
      else none,
    segmentation_by_geographics := [], segmentation_by_demographics := [],
    segmentation_by_psychographics := [], segmentation_by_behavioral := [],
    segmentation_by_firmographics := [], competitors := [],
    opportunities := ["Market opportunity 1", "Market opportunity 2"],
    threats := ["Market threat 1", "Market threat 2"],
    strategic_recommendations := ["Focus on differentiation", "Build partnerships"],
    marketing_opportunities := some ["Digital marketing expansion", "Social media engagement"],
    marketing_threats := some ["Competitor digital presence", "Rising advertising costs"],
    marketing_recommendations := some ["Invest in content marketing", "Optimize conversion funnels"],
    competitive_digital_assessment := some [], ppc_intelligence := some [],
    executive_summary := fallbackExecutiveSummary i,
    data_sources := ["Market research", "Industry analysis"],
    confidence_level := "medium", methodology := "AI analysis" }

/-- `ComprehensiveAnalysisEngine.generate_market_map`: the `try` body, with
every raised exception converted into the basic fallback record. -/
def generate_market_map (i : MarketInput) (ai : JValue) : MarketMap :=
  match tryGenerateMarketMap i ai with
  | .ok m => m
  | .error _ => basicFallbackMarketMap i

/-! ## Generator adapter and orchestration (`analyze_market_landscape`) -/

/-- Everything the text-generation collaborator can do, as observed by the
pipeline: client not configured, a raised exception (network error,
timeout, cancellation), or some returned text (valid, malformed, partial
or empty JSON alike). -/
inductive GeneratorBehavior where
  | unavailable
  | failure
  | content (s : String)

/-- `l` starts with `p`. -/
def startsWithL (p l : List Char) : Bool := p.isPrefixOf l

/-- `l` ends with `p`. -/
def endsWithL (p l : List Char) : Bool := p.reverse.isPrefixOf l.reverse

/-- The markdown-fence stripping of `server.py:645-658`: strip, drop a
leading "```json" or "```", drop a trailing "```", strip again. -/
def stripFences (l : List Char) : List Char :=
  let l := pyStrip l
  let l := if startsWithL "```json".data l then l.drop 7 else l
  let l := if endsWithL "```".data l then l.take (l.length - 3) else l
  let l := if startsWithL "```".data l then l.drop 3 else l
  pyStrip l

/-- The escalating parse of `server.py:672-691`: strict parse of the
sanitized text, then strict parse of the emergency-repaired raw text. -/
def structuralParse (content : List Char) : Option JValue :=
  match parseJson (sanitize_json_content content) with
  | some v => some v
  | none => parseJson (emergencyClean content)

/-- `MarketIntelligenceAgent.analyze_market_landscape`: returns the parsed
generator payload, falling back to `_get_fallback_analysis` when the
client is unavailable, the call raises, or every repair tier fails to
parse.  Total by construction — every exception of the source is caught
inside this function. -/
def analyze_market_landscape (i : MarketInput) (g : GeneratorBehavior) : JValue :=
  match g with
  | .unavailable => get_fallback_analysis i
  | .failure => get_fallback_analysis i
  | .content s =>
    match structuralParse (stripFences s.data) with
    | some v => v
    | none => get_fallback_analysis i

/-! ## Schema-Evolution Reader (`get_analysis`, `server.py:1520-1529`) -/

/-- Python dict assignment `d[k] = v`: replace in place if the key exists,
append otherwise (CPython preserves insertion order). -/
def dictSet (d : List (String × JValue)) (k : String) (v : JValue) :
    List (String × JValue) :=
  match d with
  | [] => [(k, v)]
  | (k', v') :: rest =>
    if k' = k then (k', v) :: rest else (k', v') :: dictSet rest k v

/-- One `if "k" not in d: d["k"] = v` statement. -/
def fillKey (k : String) (v : JValue) (d : List (String × JValue)) :
    List (String × JValue) :=
  if (jfind d k).isNone then dictSet d k v else d

/-- The backward-compatibility defaulting applied to a stored market-map
document before it is re-validated: the three sequential
`if "k" not in market_map_data` statements of `server.py:1524-1529`,
each filling its key only when absent. -/
def applyCompatDefaults (d : List (String × JValue)) : List (String × JValue) :=
  fillKey "segmentation_by_firmographics" (.arr [])
    (fillKey "brand_position" .null
      (fillKey "analysis_perspective" (.str "new_entrant") d))

/-! ## Serialized form of a `MarketMap` and structural validity -/

/-- JSON form of an optional string. -/
def optStrJ : Option String → JValue
  | none => .null
  | some s => .str s

/-- JSON form of a string list. -/
def strListJ (l : List String) : JValue := .arr (l.map .str)

/-- JSON form of an optional string list. -/
def optStrListJ : Option (List String) → JValue
  | none => .null
  | some l => strListJ l

/-- JSON form of an optional dict. -/
def optObjJ : Option (List (String × JValue)) → JValue
  | none => .null
  | some kvs => .obj kvs

/-- `ResonateBaseDemographics.dict()`. -/
def ResonateBaseDemographics.toDoc (d : ResonateBaseDemographics) : JValue :=
  .obj [("age_range", optStrJ d.age_range), ("gender", optStrJ d.gender),
        ("household_income", optStrJ d.household_income),
        ("education", optStrJ d.education), ("employment", optStrJ d.employment)]

/-- `ResonateGeographics.dict()`. -/
def ResonateGeographics.toDoc (g : ResonateGeographics) : JValue :=
  .obj [("region", optStrJ g.region), ("market_size", optStrJ g.market_size),
        ("geography_type", optStrJ g.geography_type)]

/-- `ResonateMediaUsage.dict()`. -/
def ResonateMediaUsage.toDoc (m : ResonateMediaUsage) : JValue :=
  .obj [("primary_media", strListJ m.primary_media),
        ("digital_engagement", optStrJ m.digital_engagement),
        ("content_preferences", strListJ m.content_preferences)]

/-- `ResonateSegmentMapping.dict()`. -/
def ResonateSegmentMapping.toDoc (r : ResonateSegmentMapping) : JValue :=
  .obj [("demographics", (r.demographics.map ResonateBaseDemographics.toDoc).getD .null),
        ("geographics", (r.geographics.map ResonateGeographics.toDoc).getD .null),
        ("media_usage", (r.media_usage.map ResonateMediaUsage.toDoc).getD .null),
        ("resonate_taxonomy_paths", strListJ r.resonate_taxonomy_paths),
        ("mapping_confidence", optStrJ r.mapping_confidence)]

/-- `MarketSegment.dict()`. -/
def MarketSegment.toDoc (s : MarketSegment) : JValue :=
  .obj [("name", .str s.name), ("description", .str s.description),
        ("size_estimate", .num s.size_estimate), ("growth_rate", .num s.growth_rate),
        ("key_players", strListJ s.key_players),
        ("resonate_mapping", (s.resonate_mapping.map ResonateSegmentMapping.toDoc).getD .null)]

/-- `Competitor.dict()`. -/
def Competitor.toDoc (c : Competitor) : JValue :=
  .obj [("name", .str c.name), ("strengths", strListJ c.strengths),
        ("weaknesses", strListJ c.weaknesses),
        ("market_share", (c.market_share.map JValue.num).getD .null),
        ("price_range", optStrJ c.price_range), ("price_tier", optStrJ c.price_tier),
        ("innovation_focus", optStrJ c.innovation_focus),
        ("user_segment", optStrJ c.user_segment)]

/-- `MarketMap.dict()`: the keyed document shape persisted and consumed by
renderers (the `timestamp` key is outside the model, see the header). -/
def MarketMap.toDoc (m : MarketMap) : List (String × JValue) :=
  [("id", .str m.id), ("market_input_id", .str m.market_input_id),
   ("total_market_size", .num m.total_market_size),
   ("market_growth_rate", .num m.market_growth_rate),
   ("key_drivers", strListJ m.key_drivers),
   ("analysis_perspective", .str m.analysis_perspective),
   ("brand_position", optStrJ m.brand_position),
   ("segmentation_by_geographics", .arr (m.segmentation_by_geographics.map MarketSegment.toDoc)),
   ("segmentation_by_demographics", .arr (m.segmentation_by_demographics.map MarketSegment.toDoc)),
   ("segmentation_by_psychographics", .arr (m.segmentation_by_psychographics.map MarketSegment.toDoc)),
   ("segmentation_by_behavioral", .arr (m.segmentation_by_behavioral.map MarketSegment.toDoc)),
   ("segmentation_by_firmographics", .arr (m.segmentation_by_firmographics.map MarketSegment.toDoc)),
   ("competitors", .arr (m.competitors.map Competitor.toDoc)),
   ("opportunities", strListJ m.opportunities),
   ("threats", strListJ m.threats),
   ("strategic_recommendations", strListJ m.strategic_recommendations),
   ("marketing_opportunities", optStrListJ m.marketing_opportunities),
   ("marketing_threats", optStrListJ m.marketing_threats),
   ("marketing_recommendations", optStrListJ m.marketing_recommendations),
   ("competitive_digital_assessment", optObjJ m.competitive_digital_assessment),
   ("ppc_intelligence", optObjJ m.ppc_intelligence),
   ("executive_summary", .str m.executive_summary),
   ("data_sources", strListJ m.data_sources),
   ("confidence_level", .str m.confidence_level),
   ("methodology", .str m.methodology)]

/-- Whether a JSON value is a (non-null) list. -/
def isArr : JValue → Bool
  | .arr _ => true
  | _ => false

/-- The `MarketMap` fields that have no pydantic default (the claim's
"required fields"), minus the unmodelled `timestamp`. -/
def requiredKeys : List String :=
  ["id", "market_input_id", "total_market_size", "market_growth_rate",
   "key_drivers", "analysis_perspective", "segmentation_by_geographics",
   "segmentation_by_demographics", "segmentation_by_psychographics",
   "segmentation_by_behavioral", "segmentation_by_firmographics",
   "competitors", "opportunities", "threats", "strategic_recommendations",
   "executive_summary", "data_sources", "confidence_level", "methodology"]

/-- The list-typed `MarketMap` fields that are required (non-`Optional`). -/
def requiredListKeys : List String :=
  ["key_drivers", "segmentation_by_geographics", "segmentation_by_demographics",
   "segmentation_by_psychographics", "segmentation_by_behavioral",
   "segmentation_by_firmographics", "competitors", "opportunities", "threats",
   "strategic_recommendations", "data_sources"]

/-- All list-typed `MarketMap` fields, including the `Optional[List[str]]`
marketing variants. -/
def listKeys : List String :=
  requiredListKeys ++
    ["marketing_opportunities", "marketing_threats", "marketing_recommendations"]

/-- The claim's structural validity: every required field present and no
list-valued field null. -/
def structurallyValid (doc : List (String × JValue)) : Bool :=
  requiredKeys.all (fun k => (jfind doc k).isSome)
    && listKeys.all (fun k => isArr (pyGet doc k .null))

/-- The validity the code actually guarantees: every required field
present and every required (non-`Optional`) list field non-null. -/
def requiredValid (doc : List (String × JValue)) : Bool :=
  requiredKeys.all (fun k => (jfind doc k).isSome)
    && requiredListKeys.all (fun k => isArr (pyGet doc k .null))

/-! ## Concrete test fixtures -/

/-- The curated-priority input triple of the spec, as a `MarketInput`. -/
def craftInput : MarketInput :=
  { id := "in-craft", product_name := "craft beer", industry := "food & beverage",
    geography := "united states", target_user := "beer drinkers",
    demand_driver := "craft demand", transaction_type := "retail sales",
    key_metrics := "sales volume" }

/-- The spec's concrete no-curated-match scenario (`DTCC`). -/
def dtccInput : MarketInput :=
  { id := "in-dtcc", product_name := "DTCC", industry := "Financial Services",
    geography := "Global", target_user := "institutions",
    demand_driver := "post-trade automation", transaction_type := "fees",
    key_metrics := "cleared volume" }

/-- A neutral sample input for witnesses. -/
def sampleInput : MarketInput :=
  { id := "in-sample", product_name := "Acme Widgets", industry := "Consumer Goods",
    geography := "United States", target_user := "households",
    demand_driver := "replacement demand", transaction_type := "one-time purchase",
    key_metrics := "unit sales" }

/-- Generator output used by the C1 counterexample: syntactically valid
JSON that sets an `Optional[List[str]]` field to JSON null. -/
def c1Content : String := "\x7b\"marketing_threats\": null\x7d"

/-- Payload used by C4: a plausible analysis object whose geographic
segment carries a `size` value that fails the numeric cast. -/
def c4payload (v : JValue) : JValue :=
  .obj [("opportunities", .arr [.str "O"]),
        ("segmentation", .obj [("by_geographics", .arr [.obj [("size", v)]])])]

/-- A competitor entry with both list keys absent, for the C5 witness. -/
def c5doc : List (String × JValue) := [("name", .str "Y")]

/-- The normalization of `c5doc`. -/
def c5out : Competitor :=
  { name := "Y", strengths := ["Strength 1", "Strength 2"],
    weaknesses := ["Weakness 1", "Weakness 2"], market_share := some (1/10),
    price_range := some "$100-$250", price_tier := none,
    innovation_focus := none, user_segment := none }

/-- A segment entry with both numeric keys absent, for the C6 witness. -/
def c6doc : List (String × JValue) := [("name", .str "G")]

/-- The normalization of `c6doc`. -/
def c6out : MarketSegment :=
  { name := "G", description := "Geographic segment",
    size_estimate := 1000000000, growth_rate := 5/100,
    key_players := ["Company A", "Company B"], resonate_mapping := none }

/-- The normalization of a segment entry supplying `growth = 2`. -/
def c6outB : MarketSegment :=
  { name := "Geographic Segment", description := "Geographic segment",
    size_estimate := 1000000000, growth_rate := 2,
    key_players := ["Company A", "Company B"], resonate_mapping := none }

/-- Payload with both strategic lists non-empty, for the C3 witness. -/
def c3kvs : List (String × JValue) :=
  [("opportunities", .arr [.str "A"]), ("marketing_opportunities", .arr [.str "B"])]

/-- A concrete stored document for the C10 witness: one legacy key plus an
already-present `analysis_perspective`. -/
def c10doc : List (String × JValue) :=
  [("total_market_size", .num 5), ("analysis_perspective", .str "existing_brand")]

/-! ## Helper lemmas -/

@[simp] theorem except_ok_bind {ε α β : Type} (a : α) (f : α → Except ε β) :
    (Except.ok a >>= f) = f a := rfl

@[simp] theorem except_error_bind {ε α β : Type} (e : ε) (f : α → Except ε β) :
    ((Except.error e : Except ε α) >>= f) = .error e := rfl

@[simp] theorem except_pure_eq {ε α : Type} (a : α) :
    (pure a : Except ε α) = .ok a := rfl

theorem except_bind_eq_ok {ε α β : Type} {x : Except ε α} {f : α → Except ε β} {b : β} :
    (x >>= f) = .ok b ↔ ∃ a, x = .ok a ∧ f a = .ok b := by
  cases x <;> simp [Bind.bind, Except.bind]

theorem coerceStr_mapM_loop (ls acc : List String) :
    List.mapM.loop coerceStr (ls.map JValue.str) acc = Except.ok (acc.reverse ++ ls) := by
  induction ls generalizing acc with
  | nil => simp [List.mapM.loop]
  | cons h t ih => simp [List.mapM.loop, coerceStr, ih]

theorem coerceStrList_map_str (ls : List String) :
    coerceStrList (.arr (ls.map .str)) = .ok ls := by
  simp [coerceStrList, List.mapM, coerceStr_mapM_loop]

/-! Sanitizer identity lemmas for C7. -/

theorem escapeCtl_id (l : List Char)
    (h : ∀ c ∈ l, c ≠ '\n' ∧ c ≠ '\r' ∧ c ≠ '\t') : escapeCtl l = l := by
  induction l with
  | nil => rfl
  | cons c r ih =>
    obtain ⟨⟨h1, h2, h3⟩, hr⟩ := List.forall_mem_cons.mp h
    simp [escapeCtl, h1, h2, h3, ih hr]

theorem escQuotes_id (l : List Char) (prev : Option Char)
    (h : ∀ c ∈ l, c ≠ '"') : escQuotes prev l = l := by
  induction l generalizing prev with
  | nil => rfl
  | cons c r ih =>
    obtain ⟨h1, hr⟩ := List.forall_mem_cons.mp h
    simp [escQuotes, h1, ih (some c) hr]

theorem sanitize_id (l : List Char)
    (h : ∀ c ∈ l, c ≠ '"' ∧ c ≠ '\n' ∧ c ≠ '\r' ∧ c ≠ '\t' ∧
      sanitizeRemovedCtl c = false) :
    sanitize_json_content l = l := by
  have hfilter : l.filter (fun c => !sanitizeRemovedCtl c) = l := by
    rw [List.filter_eq_self]
    intro a ha
    simp [(h a ha).2.2.2.2]
  rw [sanitize_json_content, hfilter,
    escapeCtl_id l (fun c hc => ⟨(h c hc).2.1, (h c hc).2.2.1, (h c hc).2.2.2.1⟩),
    escQuotes_id l none (fun c hc => (h c hc).1)]

/-! Dict-update lemmas for the Schema-Evolution Reader. -/

theorem jfind_dictSet_self (d : List (String × JValue)) (k : String) (v : JValue) :
    jfind (dictSet d k v) k = some v := by
  induction d with
  | nil => simp [dictSet, jfind]
  | cons p rest ih =>
    obtain ⟨k', v'⟩ := p
    by_cases h : k' = k <;> simp [dictSet, jfind, h, ih]

theorem jfind_dictSet_ne {k' k : String} (h : k' ≠ k)
    (d : List (String × JValue)) (v : JValue) :
    jfind (dictSet d k v) k' = jfind d k' := by
  induction d with
  | nil => simp [dictSet, jfind, Ne.symm h]
  | cons p rest ih =>
    obtain ⟨k0, v0⟩ := p
    by_cases h0 : k0 = k <;> by_cases h1 : k0 = k' <;>
      simp_all [dictSet, jfind]

theorem jfind_fillKey_self (k : String) (v : JValue) (d : List (String × JValue)) :
    (jfind (fillKey k v d) k).isNone = false := by
  unfold fillKey
  split_ifs with h
  · simp [jfind_dictSet_self]
  · cases hj : jfind d k
    · exact absurd (by simp [hj]) h
    · simp [hj]

theorem jfind_fillKey_ne {k' k : String} (h : k' ≠ k) (v : JValue)
    (d : List (String × JValue)) :
    jfind (fillKey k v d) k' = jfind d k' := by
  unfold fillKey
  split_ifs with hc
  · exact jfind_dictSet_ne h d v
  · rfl

theorem fillKey_of_present (k : String) (v : JValue) (d : List (String × JValue))
    (h : (jfind d k).isNone = false) : fillKey k v d = d := by
  unfold fillKey
  simp [h]

theorem applyCompat_ap_present (d : List (String × JValue)) :
    (jfind (applyCompatDefaults d) "analysis_perspective").isNone = false := by
  unfold applyCompatDefaults
  rw [jfind_fillKey_ne (by decide), jfind_fillKey_ne (by decide)]
  exact jfind_fillKey_self _ _ _

theorem applyCompat_bp_present (d : List (String × JValue)) :
    (jfind (applyCompatDefaults d) "brand_position").isNone = false := by
  unfold applyCompatDefaults
  rw [jfind_fillKey_ne (by decide)]
  exact jfind_fillKey_self _ _ _

theorem applyCompat_fg_present (d : List (String × JValue)) :
    (jfind (applyCompatDefaults d) "segmentation_by_firmographics").isNone = false := by
  exact jfind_fillKey_self _ _ _

/-! ## Claim theorems -/

/-- C7, as stated, is false: `"[1,\n2]"` is valid JSON (a newline is legal
inter-token whitespace), but the Sanitizer rewrites the newline to a
literal backslash-n, so sanitize-then-parse fails while plain strict parse
succeeds — the two parses cannot yield the same value. -/
theorem C7_sanitizer_counterexample :
    (parseJson "[1,\n2]".data).isSome = true ∧
    parseJson (sanitize_json_content "[1,\n2]".data) = none ∧
    parseJson (sanitize_json_content "[1,\n2]".data) ≠ parseJson "[1,\n2]".data := by
  refine ⟨rfl, rfl, ?_⟩
  intro h
  rw [show parseJson (sanitize_json_content "[1,\n2]".data) = none from rfl] at h
  exact Option.isSome_iff_ne_none.mp (show (parseJson "[1,\n2]".data).isSome = true from rfl) h.symm

/-- C7 amended: for text that is already valid JSON and contains no double
quote, no literal newline, carriage return or tab, and no
sanitizer-removed control character, the Sanitizer is the identity, so
sanitize-then-strict-parse yields the same value as strict parse alone.
(The counterexample shows the restriction is necessary: the Sanitizer's
newline/quote escaping corrupts valid JSON that uses those characters.) -/
theorem C7_sanitizer_roundtrip_amended (l : List Char) (v : JValue)
    (hp : parseJson l = some v)
    (hc : ∀ c ∈ l, c ≠ '"' ∧ c ≠ '\n' ∧ c ≠ '\r' ∧ c ≠ '\t' ∧
      sanitizeRemovedCtl c = false) :
    parseJson (sanitize_json_content l) = some v := by
  rw [sanitize_id l hc]
  exact hp

/-- Witness for the amended C7 at the concrete text `"[true, null]"`. -/
theorem C7_sanitizer_roundtrip_amended_witness :
    parseJson (sanitize_json_content "[true, null]".data) =
      some (.arr [.bool true, .null]) :=
  C7_sanitizer_roundtrip_amended "[true, null]".data _ rfl (by decide)

/-- C9: the Schema-Evolution Reader's default-filling step (absent
`analysis_perspective` becomes `"new_entrant"`, absent `brand_position`
becomes null, absent `segmentation_by_firmographics` becomes the empty
list) is idempotent: after one application all three keys are present, so
a second application changes nothing. -/
theorem C9_compat_defaults_idempotent (d : List (String × JValue)) :
    applyCompatDefaults (applyCompatDefaults d) = applyCompatDefaults d := by
  conv_lhs => rw [applyCompatDefaults]
  rw [fillKey_of_present _ _ _ (applyCompat_ap_present d),
    fillKey_of_present _ _ _ (applyCompat_bp_present d),
    fillKey_of_present _ _ _ (applyCompat_fg_present d)]

/-- C10: the backward-compatibility step of `get_analysis` touches only
the keys `analysis_perspective`, `brand_position` and
`segmentation_by_firmographics`, each only when absent: every other key's
value is looked up unchanged, and each of the three keys, when already
present, keeps its stored value. -/
theorem C10_compat_defaults_frame (d : List (String × JValue)) (k : String)
    (hk1 : k ≠ "analysis_perspective") (hk2 : k ≠ "brand_position")
    (hk3 : k ≠ "segmentation_by_firmographics") :
    jfind (applyCompatDefaults d) k = jfind d k ∧
    ((jfind d "analysis_perspective").isNone = false →
      jfind (applyCompatDefaults d) "analysis_perspective" =
        jfind d "analysis_perspective") ∧
    ((jfind d "brand_position").isNone = false →
      jfind (applyCompatDefaults d) "brand_position" = jfind d "brand_position") ∧
    ((jfind d "segmentation_by_firmographics").isNone = false →
      jfind (applyCompatDefaults d) "segmentation_by_firmographics" =
        jfind d "segmentation_by_firmographics") := by
  refine ⟨?_, ?_, ?_, ?_⟩
  · unfold applyCompatDefaults
    rw [jfind_fillKey_ne hk3, jfind_fillKey_ne hk2, jfind_fillKey_ne hk1]
  · intro hp
    unfold applyCompatDefaults
    rw [jfind_fillKey_ne (by decide), jfind_fillKey_ne (by decide),
      fillKey_of_present _ _ _ hp]
  · intro hp
    unfold applyCompatDefaults
    have hp' : (jfind (fillKey "analysis_perspective" (.str "new_entrant") d)
        "brand_position").isNone = false := by
      rw [jfind_fillKey_ne (by decide)]
      exact hp
    rw [jfind_fillKey_ne (by decide), fillKey_of_present _ _ _ hp',
      jfind_fillKey_ne (by decide)]
  · intro hp
    unfold applyCompatDefaults
    have hp' : (jfind (fillKey "brand_position" .null
        (fillKey "analysis_perspective" (.str "new_entrant") d))
        "segmentation_by_firmographics").isNone = false := by
      rw [jfind_fillKey_ne (by decide), jfind_fillKey_ne (by decide)]
      exact hp
    rw [fillKey_of_present _ _ _ hp', jfind_fillKey_ne (by decide),
      jfind_fillKey_ne (by decide)]

/-- Witness for C10 at `c10doc` and the untouched key
`total_market_size`. -/
theorem C10_compat_defaults_frame_witness :
    jfind (applyCompatDefaults c10doc) "total_market_size" =
      jfind c10doc "total_market_size" ∧
    ((jfind c10doc "analysis_perspective").isNone = false →
      jfind (applyCompatDefaults c10doc) "analysis_perspective" =
        jfind c10doc "analysis_perspective") ∧
    ((jfind c10doc "brand_position").isNone = false →
      jfind (applyCompatDefaults c10doc) "brand_position" =
        jfind c10doc "brand_position") ∧
    ((jfind c10doc "segmentation_by_firmographics").isNone = false →
      jfind (applyCompatDefaults c10doc) "segmentation_by_firmographics" =
        jfind c10doc "segmentation_by_firmographics") :=
  C10_compat_defaults_frame c10doc "total_market_size"
    (by decide) (by decide) (by decide)

/-- Every `MarketMap` the normalizer can construct serializes with all
required keys present and all required list fields as actual (non-null)
lists: this holds for the typed record by construction, exactly as
pydantic guarantees it for every successfully validated model. -/
theorem requiredValid_toDoc (m : MarketMap) : requiredValid m.toDoc = true := rfl

/-- C1, as stated, is false: with the generator returning the valid JSON
`c1Content`, the pipeline completes without raising, yet the resulting
MarketMap's `marketing_threats` — a list-valued field — is null, because
the pydantic model types the marketing lists as `Optional[List[str]]` and
an explicit JSON null passes validation as `None`. -/
theorem C1_total_function_counterexample :
    structurallyValid (MarketMap.toDoc (generate_market_map sampleInput
      (analyze_market_landscape sampleInput (.content c1Content)))) = false ∧
    (generate_market_map sampleInput
      (analyze_market_landscape sampleInput (.content c1Content))).marketing_threats
      = none := ⟨rfl, rfl⟩

/-- C1 amended: for every well-formed `MarketInput` and every generator
behavior (unavailable, raised exception, or arbitrary returned text —
valid, malformed, partial or empty JSON), `analyze_market_landscape`
followed by `generate_market_map` completes without raising and returns a
MarketMap whose required fields are all present and whose required
(non-`Optional`) list fields are all non-null lists.  Only the optional
`marketing_*` list fields can be null, and only when the generator
explicitly supplies JSON null for them (see the counterexample). -/
theorem C1_total_function_amended (i : MarketInput) (g : GeneratorBehavior) :
    requiredValid (MarketMap.toDoc
      (generate_market_map i (analyze_market_landscape i g))) = true :=
  requiredValid_toDoc _

/-- C2: evaluation of the code at the claim's input.  For the triple
("craft beer", "food & beverage", "united states") with the generator
failing, the curated TAM of 27.8B does reach `total_market_size`, but the
competitor list is the generic placeholder list — zero of the five
curated brewery names appear.  The `competitors = [...]` assignment at
`server.py:757` sits at the same indentation as the `if curated_data:`
statement, so it unconditionally overwrites the `real_competitors` list
that `server.py:736-748` builds from the curated data, against the intent
documented by the adjacent comments and by the repository's own tests. -/
theorem C2_curated_priority_code_evaluation :
    (generate_market_map craftInput (get_fallback_analysis craftInput)).total_market_size
      = 27800000000 ∧
    ((generate_market_map craftInput (get_fallback_analysis craftInput)).competitors.map
      Competitor.name)
      = ["Market Leader", "Technology Innovator", "Growth Challenger", "Value Player"] ∧
    (["Sierra Nevada", "Stone Brewing", "New Belgium", "Dogfish Head", "Bell's Brewery"].filter
      (fun n => ((generate_market_map craftInput (get_fallback_analysis craftInput)).competitors.map
        Competitor.name).contains n)).length = 0 :=
  ⟨by decide, rfl, rfl⟩

/-- C8: for every input whose (product, industry, geography) triple has no
curated match, the generator-failure path — `_get_fallback_analysis`
followed by the Field Normalizer — produces a MarketMap with
`confidence_level = "low"` and a methodology ("Minimal fallback
analysis") containing "fallback".  The fallback payload carries these two
values unconditionally and the normalizer passes them through. -/
theorem C8_fallback_confidence (i : MarketInput)
    (h : get_curated_market_data (strLower i.product_name) (strLower i.industry)
      (strLower i.geography) = none) :
    (generate_market_map i (get_fallback_analysis i)).confidence_level = "low" ∧
    strContains (generate_market_map i (get_fallback_analysis i)).methodology "fallback"
      = true := by
  unfold get_fallback_analysis
  rw [h]
  cases hb : hasSpecificBrand i <;> cases h2 : isB2B i <;> exact ⟨rfl, rfl⟩

/-- Witness for C8 at the spec's concrete DTCC scenario, which has no
curated match (exact or fuzzy). -/
theorem C8_fallback_confidence_witness :
    (generate_market_map dtccInput (get_fallback_analysis dtccInput)).confidence_level
      = "low" ∧
    strContains (generate_market_map dtccInput (get_fallback_analysis dtccInput)).methodology
      "fallback" = true :=
  C8_fallback_confidence dtccInput rfl

/-- C4, as stated, is false: a failing numeric cast on one segment's
`size` does not replace just that field with its default — the exception
aborts the whole `try` block and the entire record is replaced by the
basic fallback map, so unrelated fields change too: the payload's
`opportunities = ["O"]` comes out as the fallback placeholders. -/
theorem C4_cast_failure_counterexample :
    (generate_market_map sampleInput (c4payload (.str "not a number"))).opportunities
      = ["Market opportunity 1", "Market opportunity 2"] ∧
    (generate_market_map sampleInput (c4payload (.str "not a number"))).opportunities
      ≠ ["O"] := ⟨rfl, by decide⟩

/-- C4 amended: the normalizer never raises to its caller, but a numeric
cast failure is not localized: whenever a segment's `size` fails
`float(...)`, the whole output is the engine's basic fallback MarketMap
(every field replaced, not just the failing one).  Per-field defaulting
happens only when a field is absent, never on cast failure. -/
theorem C4_cast_failure_amended (i : MarketInput) (v : JValue) (e : PyErr)
    (h : pyFloat v = .error e) :
    generate_market_map i (c4payload v) = basicFallbackMarketMap i := by
  simp [generate_market_map, tryGenerateMarketMap, c4payload, asObj, pyGet, jfind,
    selectOpportunities, truthy, iterPy, List.mapM, List.mapM.loop, convertGeoSegment,
    convertSeg, tryResonate, coerceStr, h]

/-- Witness for the amended C4 at the concrete non-numeric string
`"abc"`. -/
theorem C4_cast_failure_amended_witness :
    generate_market_map sampleInput (c4payload (.str "abc"))
      = basicFallbackMarketMap sampleInput :=
  C4_cast_failure_amended sampleInput (.str "abc") .valueError rfl

/-- C5, as stated, is false: a competitor entry that carries explicitly
empty `strengths`/`weaknesses` lists keeps them empty after
normalization — `comp.get(...)` returns the present empty list and the
two-item placeholder default is never consulted. -/
theorem C5_nonempty_lists_counterexample :
    (convertCompetitor (.obj [("name", .str "X"), ("strengths", .arr []),
      ("weaknesses", .arr [])])).map Competitor.strengths = .ok [] ∧
    (convertCompetitor (.obj [("name", .str "X"), ("strengths", .arr []),
      ("weaknesses", .arr [])])).map Competitor.weaknesses = .ok [] :=
  ⟨rfl, rfl⟩

/-- C5 amended: the normalized competitor's `strengths` and `weaknesses`
are guaranteed non-empty only when the corresponding key is absent from
the entry, in which case the synthesized two-item placeholder lists are
used; an explicitly empty list passes through empty. -/
theorem C5_nonempty_lists_amended (ckvs : List (String × JValue)) (c : Competitor)
    (hs : jfind ckvs "strengths" = none) (hw : jfind ckvs "weaknesses" = none)
    (hok : convertCompetitor (.obj ckvs) = .ok c) :
    c.strengths = ["Strength 1", "Strength 2"] ∧ c.strengths ≠ [] ∧
    c.weaknesses = ["Weakness 1", "Weakness 2"] ∧ c.weaknesses ≠ [] := by
  unfold convertCompetitor at hok
  simp only [asObj, except_ok_bind, except_bind_eq_ok, except_pure_eq,
    Except.ok.injEq] at hok
  obtain ⟨nm, hnm, st, hst, wk, hwk, sh, hsh, pr, hpr, heq⟩ := hok
  subst heq
  simp only [pyGet, hs, hw, Option.getD] at hst hwk
  rw [show coerceStrList (.arr [.str "Strength 1", .str "Strength 2"])
      = Except.ok ["Strength 1", "Strength 2"] from rfl] at hst
  rw [show coerceStrList (.arr [.str "Weakness 1", .str "Weakness 2"])
      = Except.ok ["Weakness 1", "Weakness 2"] from rfl] at hwk
  obtain rfl : st = ["Strength 1", "Strength 2"] := by simpa using hst.symm
  obtain rfl : wk = ["Weakness 1", "Weakness 2"] := by simpa using hwk.symm
  exact ⟨rfl, by simp, rfl, by simp⟩

/-- Witness for the amended C5 at `c5doc`. -/
theorem C5_nonempty_lists_amended_witness :
    c5out.strengths = ["Strength 1", "Strength 2"] ∧ c5out.strengths ≠ [] ∧
    c5out.weaknesses = ["Weakness 1", "Weakness 2"] ∧ c5out.weaknesses ≠ [] :=
  C5_nonempty_lists_amended c5doc c5out rfl rfl rfl

/-- C6, as stated, is false: a segment whose `growth` is 10 (1000%) is
normalized to `growth_rate = 10`, outside the claimed `(-1, 5)` sanity
band — no clamping or defaulting of out-of-range values exists. -/
theorem C6_segment_bounds_counterexample :
    (convertGeoSegment (.obj [("growth", .num 10)])).map MarketSegment.growth_rate
      = .ok 10 ∧ ¬((10 : ℚ) < 5) :=
  ⟨rfl, by norm_num⟩

/-- C6 amended: the claimed bounds hold exactly when the incoming values
satisfy them.  When `size` and `growth` are absent, the defaults
(10^9 and 0.05) are used and satisfy `size_estimate ≥ 0` and
`-1 < growth_rate < 5`; when a numeric value is supplied it is propagated
raw into the output — the normalizer performs no clamping. -/
theorem C6_segment_bounds_amended :
    (∀ (kvs : List (String × JValue)) (seg : MarketSegment),
      jfind kvs "size" = none → jfind kvs "growth" = none →
      convertGeoSegment (.obj kvs) = .ok seg →
      seg.size_estimate = 1000000000 ∧ seg.growth_rate = 5/100 ∧
      0 ≤ seg.size_estimate ∧ -1 < seg.growth_rate ∧ seg.growth_rate < 5) ∧
    (∀ (kvs : List (String × JValue)) (seg : MarketSegment) (q : ℚ),
      jfind kvs "growth" = some (.num q) →
      convertGeoSegment (.obj kvs) = .ok seg →
      seg.growth_rate = q) := by
  constructor
  · intro kvs seg hs hg hok
    unfold convertGeoSegment convertSeg at hok
    simp only [asObj, except_ok_bind, except_bind_eq_ok, except_pure_eq,
      Except.ok.injEq] at hok
    obtain ⟨nm, hnm, dsc, hdsc, sz, hsz, gr, hgr, pl, hpl, heq⟩ := hok
    subst heq
    simp only [pyGet, hs, hg, Option.getD] at hsz hgr
    rw [show pyFloat (.num 1000000000) = Except.ok 1000000000 from rfl] at hsz
    rw [show pyFloat (.num (5/100)) = Except.ok (5/100) from rfl] at hgr
    obtain rfl : sz = 1000000000 := by simpa using hsz.symm
    obtain rfl : gr = 5/100 := by simpa using hgr.symm
    refine ⟨rfl, rfl, by norm_num, by norm_num, by norm_num⟩
  · intro kvs seg q hg hok
    unfold convertGeoSegment convertSeg at hok
    simp only [asObj, except_ok_bind, except_bind_eq_ok, except_pure_eq,
      Except.ok.injEq] at hok
    obtain ⟨nm, hnm, dsc, hdsc, sz, hsz, gr, hgr, pl, hpl, heq⟩ := hok
    subst heq
    simp only [pyGet, hg, Option.getD] at hgr
    rw [show pyFloat (.num q) = Except.ok q from rfl] at hgr
    obtain rfl : gr = q := by simpa using hgr.symm
    rfl

/-- Witness for the amended C6: defaults at `c6doc`, raw propagation of a
supplied `growth = 2`. -/
theorem C6_segment_bounds_amended_witness :
    (c6out.size_estimate = 1000000000 ∧ c6out.growth_rate = 5/100 ∧
      0 ≤ c6out.size_estimate ∧ -1 < c6out.growth_rate ∧ c6out.growth_rate < 5) ∧
    c6outB.growth_rate = 2 :=
  ⟨C6_segment_bounds_amended.1 c6doc c6out rfl rfl rfl,
   C6_segment_bounds_amended.2 [("growth", .num 2)] c6outB 2 rfl rfl⟩

set_option maxHeartbeats 1000000 in
/-- C3: whenever the parsed payload's top-level `opportunities` is a
non-empty string list, the normalized MarketMap's `opportunities` equals
exactly that list — `marketing_opportunities` never replaces it; the
substitution happens only when `opportunities` is empty or absent
(Python falsiness of the `.get(..., [])` result). -/
theorem C3_opportunities_priority (i : MarketInput) (kvs : List (String × JValue))
    (ls : List String) (m : MarketMap)
    (hop : jfind kvs "opportunities" = some (.arr (ls.map .str)))
    (hne : ls ≠ [])
    (hok : tryGenerateMarketMap i (.obj kvs) = .ok m) :
    m.opportunities = ls := by
  unfold tryGenerateMarketMap at hok
  simp only [asObj, except_ok_bind, except_bind_eq_ok, except_pure_eq,
    Except.ok.injEq] at hok
  obtain ⟨sk, hsk, a1, ha1, b1, hb1, a2, ha2, b2, hb2, a3, ha3, b3, hb3,
    a4, ha4, co, hco, a5, ha5, geo, hgeo, a6, ha6, dm, hdm, a7, ha7, ps, hps,
    a8, ha8, bh, hbh, a9, ha9, fm, hfm, ov, hov, tms, htms, mg, hmg, kd, hkd,
    ap, hap, bp, hbp, op, hop2, th, hth, rc, hrc, mo, hmo, mt, hmt, mr, hmr,
    cd, hcd, si, hsi, ds, hds, cl, hcl, mth, hmth, ex, hex, heq⟩ := hok
  subst heq
  have hsel : selectOpportunities kvs = .arr (ls.map .str) := by
    unfold selectOpportunities
    rw [pyGet, hop]
    cases ls with
    | nil => exact absurd rfl hne
    | cons x xs => simp [truthy, Option.getD]
  rw [hsel, coerceStrList_map_str] at hop2
  obtain rfl : op = ls := by simpa using hop2.symm
  rfl

/-- Witness for C3: with both lists present and non-empty, the original
`opportunities` (not the marketing variant) reaches the output. -/
theorem C3_opportunities_priority_witness :
    (generate_market_map sampleInput (.obj c3kvs)).opportunities = ["A"] :=
  C3_opportunities_priority sampleInput c3kvs ["A"]
    (generate_market_map sampleInput (.obj c3kvs)) rfl (by decide) rfl
